import Mathlib

/-!
Formal model of `capsules/models/scae.py` (stacked capsule autoencoder).

The development embeds, directly from the source:
* the `ImageCapsule._build` vote post-processing (slice, reshape, per-capsule
  presence aggregation) over a concrete row-major tensor model;
* the per-capsule reconstruction argument preparation of
  `ImageAutoencoder._build` (`snt.MergeDims`, `snt.TileByDim`);
* the `ImageAutoencoder._build` forward pass as a symbolic computation with
  an explicit event trace and Python-style exceptions (`TypeError` fallback,
  `ValueError` selector validation, `AttributeError` on missing record
  fields);
* the scalar loss assembly of `ImageAutoencoder._loss`.
-/

namespace Scae

/-! ## Tensor model (row-major shape + flat rational data) -/

/-- A row-major tensor: a shape and flat rational data. -/
structure Tensor where
  shape : List Nat
  data : List ℚ
  deriving DecidableEq, Repr

/-- `tf.reshape` as used at `scae.py:76`: succeeds exactly when the element
count matches the product of the target shape. -/
def tfReshape (t : Tensor) (s : List Nat) : Option Tensor :=
  if t.data.length = s.prod then some ⟨s, t.data⟩ else none

/-- The slice `res.vote[Ellipsis, :-1, :]` of `scae.py:76`: it drops the last
slice along the second-to-last axis (for a `[..., p, q]` tensor it keeps, in
each trailing `p*q` block, the first `(p-1)*q` entries). Requires rank ≥ 2. -/
def sliceDropPenultimate (t : Tensor) : Option Tensor :=
  match t.shape.reverse with
  | q :: p :: rest =>
      some ⟨(q :: (p - 1) :: rest).reverse,
        (List.range rest.prod).flatMap
          (fun i => ((t.data.drop (i * (p * q))).take ((p - 1) * q)))⟩
  | _ => none

/-- Modelled from the spec: the operation the C9 claim describes in words —
dropping the single auxiliary last coordinate along the LAST axis of the vote
tensor (keeping `q-1` of `q` trailing fields). Stated only to be compared
with the source's `sliceDropPenultimate`. -/
def dropLastCoordinate (t : Tensor) : Option Tensor :=
  match t.shape.reverse with
  | q :: rest =>
      some ⟨((q - 1) :: rest).reverse,
        (List.range rest.prod).flatMap
          (fun i => ((t.data.drop (i * q)).take (q - 1)))⟩
  | [] => none

/-- `tf.reduce_max` over a list of entries (the reduced axis); the source
only reduces non-empty axes, the `[]` value is irrelevant padding. -/
def listMax : List ℚ → ℚ
  | [] => 0
  | x :: xs => xs.foldl max x

/-- `scae.py:84-86`: `tf.reduce_max(tf.reshape(vote_presence_prob,
[batch_size, n_caps, n_votes]), 2)`. Row-major entry `(b, c, v)` of the
reshaped tensor is `vpp[(b*C+c)*V + v]`. -/
def capsPresenceProb (B C V : Nat) (vpp : List ℚ) : List ℚ :=
  (List.range (B * C)).map
    (fun j => listMax ((List.range V).map (fun v => vpp.getD (j * V + v) 0)))

/-- Result of the `ImageCapsule._build` fragment modelled here.
`likelihood_votes` records the vote tensor handed to `CapsuleLikelihood` at
`scae.py:78-81` (which is the already-reshaped `res.vote`). -/
structure ImageCapsuleRes where
  vote : Tensor
  likelihood_votes : Tensor
  caps_presence_prob : List ℚ
  deriving DecidableEq, Repr

/-- `ImageCapsule._build` (`scae.py:69-89`), vote/presence part: slice the
raw capsule-layer vote tensor, reshape it to the hard-coded
`[batch_size, n_caps, n_votes, 6]`, feed the reshaped votes to the
likelihood, and aggregate per-capsule presence by `reduce_max` over votes.
`nCapsDims` is the stored `self._n_caps_dims`, which the vote shape never
consults. -/
def imageCapsuleBuild (nCapsDims B C V : Nat) (raw : Tensor) (vpp : List ℚ) :
    Option ImageCapsuleRes :=
  (sliceDropPenultimate raw).bind (fun s =>
    (tfReshape s [B, C, V, 6]).bind (fun v =>
      if vpp.length = B * C * V then
        some { vote := v, likelihood_votes := v,
               caps_presence_prob := capsPresenceProb B C V vpp }
      else none))

/-! ## Per-capsule reconstruction argument preparation (`scae.py:257-270`) -/

/-- `snt.TileByDim([0], [k])`: `tf.tile` with multiple `k` on dimension 0 —
the whole tensor is repeated `k` times along the leading axis. -/
def tileByDim0 (k : Nat) (t : Tensor) : Option Tensor :=
  match t.shape with
  | b :: rest => some ⟨(b * k) :: rest, (List.range k).flatMap (fun _ => t.data)⟩
  | [] => none

/-- `snt.MergeDims(0, 2)`: merge the two leading axes into one. -/
def mergeDims02 (t : Tensor) : Option Tensor :=
  match t.shape with
  | a :: b :: rest => some ⟨(a * b) :: rest, t.data⟩
  | _ => none

/-- Elementwise product of same-shaped tensors (`*` at `scae.py:268`). -/
def elemwiseMul (a b : Tensor) : Option Tensor :=
  if a.shape = b.shape then some ⟨a.shape, List.zipWith (· * ·) a.data b.data⟩
  else none

/-- The argument record handed to the per-capsule `self._primary_decoder`
call at `scae.py:266-270`. -/
structure PerCapsArgs where
  pose : Tensor
  pres : Tensor
  feature : Option Tensor
  img_embedding : Tensor
  deriving DecidableEq, Repr

/-- `scae.py:257-270`: build the arguments of the per-capsule decode. The
tile factor is `res.vote.shape[1]` (the number of capsules); the vote and
vote-presence tensors have their two leading axes merged; presence, feature
(when present) and image embedding are tiled along the batch axis. -/
def perCapsRecArgs (vote vote_presence presence : Tensor)
    (feature : Option Tensor) (img_embedding : Tensor) : Option PerCapsArgs := do
  let c ← vote.shape[1]?
  let tiled_presence ← tileByDim0 c presence
  let tiled_feature ←
    match feature with
    | none => some none
    | some f => (tileByDim0 c f).map some
  let tiled_img_embedding ← tileByDim0 c img_embedding
  let merged_vote ← mergeDims02 vote
  let merged_vote_pres ← mergeDims02 vote_presence
  let pres ← elemwiseMul merged_vote_pres tiled_presence
  pure { pose := merged_vote, pres := pres, feature := tiled_feature,
         img_embedding := tiled_img_embedding }

/-! ## Symbolic forward pass of `ImageAutoencoder._build` (`scae.py:166-329`)

External collaborators (primary encoder, object-capsule encoder, decoder,
primary decoder, probes) are opaque: their outputs are represented as
symbolic application terms, so two tensors are equal exactly when they are
produced by the same external computation on the same inputs. -/

/-- Symbolic tensor values: applications of named external operations
(arity 0 to 4) and embedded rational configuration constants. -/
inductive Val : Type
  | q : ℚ → Val
  | ext0 : String → Val
  | ext1 : String → Val → Val
  | ext2 : String → Val → Val → Val
  | ext3 : String → Val → Val → Val → Val
  | ext4 : String → Val → Val → Val → Val → Val
  deriving DecidableEq, Repr

/-- Python `None` vs a tensor, for optional arguments of external calls. -/
def optVal : Option Val → Val
  | none => Val.ext0 "None"
  | some v => v

/-- Python exceptions relevant to the forward pass. `typeError` carries the
site that raised it (argument-count mismatch, encoder body, tiling, ...);
the `except TypeError` clause in the source cannot observe that site. -/
inductive PyErr : Type
  | typeError (src : String)
  | valueError (msg : String)
  | attributeError (fld : String)
  | other (msg : String)
  deriving DecidableEq, Repr

instance {ε α : Type} [DecidableEq ε] [DecidableEq α] :
    DecidableEq (Except ε α)
  | Except.ok a, Except.ok b =>
      if h : a = b then isTrue (by rw [h]) else isFalse (by simp [h])
  | Except.ok _, Except.error _ => isFalse (by simp)
  | Except.error _, Except.ok _ => isFalse (by simp)
  | Except.error e, Except.error f =>
      if h : e = f then isTrue (by rw [h]) else isFalse (by simp [h])

/-- Observable events of one forward pass, in program order. -/
inductive Event : Type
  | primaryEncoderCall
  | makeTemplatesCall (t : Val)
  | encoderTwoArgCall
  | encoderOneArgCall
  | decoderCall
  | primaryDecoderCall (tag : String) (tmpl : Option Val)
  | sparsityCall (tag : String)
  | probeCall (tag : String)
  deriving DecidableEq, Repr

/-- The constructor configuration of `ImageAutoencoder` (`scae.py:95-152`)
restricted to the fields the forward pass reads. -/
structure Config where
  vote_type : String
  pres_type : String
  prep : String
  stop_grad_caps_inpt : Bool
  stop_grad_caps_target : Bool
  feed_templates : Bool
  weight_decay : ℚ
  posterior_sparsity_loss_type : String
  prior_sparsity_loss_type : String
  prior_within_example_constant : ℚ

/-- Behaviour of the external collaborators that can influence control flow:
the object-capsule encoder called with two or one argument(s) (either call
may raise), a possible failure of the template tiling/flatten/concat steps
inside the `try` block, the `templates.shape[0] == 1` test, and whether the
primary encoder supplies a `feature` tensor. -/
structure ExtBehavior where
  twoArg : Val → Val → Except PyErr Val
  oneArg : Val → Except PyErr Val
  tileErr : Option PyErr
  templatesShape0IsOne : Bool
  pcHasFeature : Bool

/-- The input mapping: the image field is always present; `label` is `none`
when no label key is configured or the field is absent; `labeled` is the
optional labeled-mask. -/
structure DataRecord where
  img : Val
  label : Option Val
  labeled : Option Val

/-- `self._primary_encoder(input_x)` result record (`scae.py:172`). -/
def pcRecordF (data : DataRecord) : Val := Val.ext1 "primary_encoder" data.img

def pcPoseF (data : DataRecord) : Val := Val.ext1 "pose" (pcRecordF data)

def pcPresF (data : DataRecord) : Val := Val.ext1 "presence" (pcRecordF data)

def pcFeatureF (ext : ExtBehavior) (data : DataRecord) : Option Val :=
  if ext.pcHasFeature then some (Val.ext1 "feature" (pcRecordF data)) else none

def pcEmbF (data : DataRecord) : Val := Val.ext1 "img_embedding" (pcRecordF data)

/-- `scae.py:175-177`: `input_pose = concat([pose, 1 - expand_dims(pres)])`. -/
def inputPose0F (data : DataRecord) : Val :=
  Val.ext2 "concat_last" (pcPoseF data)
    (Val.ext1 "one_minus" (Val.ext1 "expand_dims_last" (pcPresF data)))

/-- `scae.py:179-191`: optional stop-gradient, then optional concatenation
of the per-part feature. -/
def inputPoseF (cfg : Config) (ext : ExtBehavior) (data : DataRecord) : Val :=
  let p := if cfg.stop_grad_caps_inpt
    then Val.ext1 "stop_gradient" (inputPose0F data) else inputPose0F data
  match pcFeatureF ext data with
  | some f => Val.ext2 "concat_last" p f
  | none => p

def inputPresF (cfg : Config) (data : DataRecord) : Val :=
  if cfg.stop_grad_caps_inpt
  then Val.ext1 "stop_gradient" (pcPresF data) else pcPresF data

def targetPoseF (cfg : Config) (data : DataRecord) : Val :=
  if cfg.stop_grad_caps_target
  then Val.ext1 "stop_gradient" (pcPoseF data) else pcPoseF data

def targetPresF (cfg : Config) (data : DataRecord) : Val :=
  if cfg.stop_grad_caps_target
  then Val.ext1 "stop_gradient" (pcPresF data) else pcPresF data

/-- `scae.py:169` with `scae.py:155-161`: the reconstruction target. -/
def targetXF (cfg : Config) (data : DataRecord) : Val :=
  if cfg.prep = "sobel" then Val.ext1 "sobel" data.img else data.img

/-- `scae.py:196-198`: the single `make_templates` call of the pass. -/
def templatesF (ext : ExtBehavior) (data : DataRecord) : Val :=
  Val.ext2 "make_templates" (Val.ext1 "n_templates" (pcPoseF data))
    (optVal (pcFeatureF ext data))

/-- `scae.py:218`: `res = self._decoder(h, target_pose, target_pres)`. -/
def decV (cfg : Config) (data : DataRecord) (hv : Val) : Val :=
  Val.ext3 "decoder" hv (targetPoseF cfg data) (targetPresF cfg data)

/-- The guarded body of the `try` block (`scae.py:200-213`): prepare
`pose_with_templates` (which may fail inside the tiling/flatten/concat
steps when templates are fed) and call the encoder with two arguments. -/
def tryFirst (cfg : Config) (ext : ExtBehavior) (ip ipr T : Val) :
    Except PyErr Val × List Event :=
  if cfg.feed_templates then
    match ext.tileErr with
    | some e => (Except.error e, [])
    | none =>
      let it := if cfg.stop_grad_caps_inpt then Val.ext1 "stop_gradient" T else T
      let it := if ext.templatesShape0IsOne then Val.ext1 "tile_by_dim0" it else it
      let it := Val.ext1 "batch_flatten2" it
      let pwt := Val.ext2 "concat_last" ip it
      (ext.twoArg pwt ipr, [Event.encoderTwoArgCall])
  else
    (ext.twoArg ip ipr, [Event.encoderTwoArgCall])

/-- `scae.py:200-216`: the whole `try`/`except TypeError` region. Any
`TypeError` raised by the body — regardless of its origin — triggers the
one-argument fallback `h = self._encoder(input_pose)`; every other
exception propagates. -/
def tryRegion (cfg : Config) (ext : ExtBehavior) (ip ipr T : Val) :
    Except PyErr Val × List Event :=
  match tryFirst cfg ext ip ipr T with
  | (Except.ok h, evs) => (Except.ok h, evs)
  | (Except.error (PyErr.typeError _), evs) =>
      (ext.oneArg ip, evs ++ [Event.encoderOneArgCall])
  | (Except.error e, evs) => (Except.error e, evs)

/-- `scae.py:221-228`: the `vote_type` selector. -/
def voteSelect (vt : String) (pose sw w : Val) : Except PyErr Val :=
  if vt = "enc" then Except.ok pose
  else if vt = "soft" then Except.ok sw
  else if vt = "hard" then Except.ok w
  else Except.error (PyErr.valueError ("Invalid vote_type=\"" ++ vt ++ "\"\"."))

/-- `scae.py:230-237`: the `pres_type` selector. -/
def presSelect (pt : String) (pres swp wp : Val) : Except PyErr Val :=
  if pt = "enc" then Except.ok pres
  else if pt = "soft" then Except.ok swp
  else if pt = "hard" then Except.ok wp
  else Except.error (PyErr.valueError ("Invalid pres_type=\"" ++ pt ++ "\"\"."))

/-- The result record of a successful forward pass, with the fields the
specification's claims mention. Classification fields are `Option`s: absent
fields are `none`, mirroring the loosely-typed result bag of the source. -/
structure BuildRes where
  primary_presence : Val
  winner : Val
  soft_winner : Val
  vote : Val
  vote_presence : Val
  caps_presence_prob : Val
  posterior_mixing_probs : Val
  bottom_up_rec : Val
  top_down_rec : Val
  rec_primary : Val
  top_down_per_caps_rec : Val
  templates : Val
  template_pres : Val
  used_templates : Val
  rec_mode : Val
  rec_mean : Val
  mse : Val
  rec_ll : Val
  posterior_within_sparsity_loss : Val
  posterior_between_sparsity_loss : Val
  prior_within_sparsity_loss : Val
  prior_between_sparsity_loss : Val
  posterior_cls_xe : Option Val
  posterior_cls_acc : Option Val
  prior_cls_xe : Option Val
  prior_cls_acc : Option Val
  best_cls_acc : Val
  primary_caps_l1 : Val
  weight_decay_loss : Val
  deriving DecidableEq, Repr

/-- The four `self._primary_decoder` calls of one pass (`scae.py:239-270`),
each recording the template tensor owned by the decoder module at call time
(`make_templates` ran once, before all of them). -/
def pdEvents (T : Val) : List Event :=
  [Event.primaryDecoderCall "bottom_up" (some T),
   Event.primaryDecoderCall "top_down" (some T),
   Event.primaryDecoderCall "primary" (some T),
   Event.primaryDecoderCall "per_caps" (some T)]

/-- Events of the successful tail of the pass after the decoder call. -/
def tailEvents (T : Val) (lbl : Bool) : List Event :=
  pdEvents T ++ [Event.sparsityCall "posterior", Event.sparsityCall "prior"] ++
    (if lbl then [Event.probeCall "posterior", Event.probeCall "prior"] else [])

/-- The result record of a successful pass (`scae.py:218-329`), given the
encoder output `hv`, the selected primary decode pair `pdv`/`pdp` and the
label `lab`. -/
def mkSuccess (cfg : Config) (ext : ExtBehavior) (data : DataRecord)
    (hv pdv pdp lab : Val) : BuildRes :=
  let d := decV cfg data hv
  let feat := pcFeatureF ext data
  let winner := Val.ext1 "winner" d
  let vote := Val.ext1 "vote" d
  let vote_presence := Val.ext1 "vote_presence" d
  let caps_presence_prob := Val.ext1 "caps_presence_prob" d
  let posterior_mixing_probs := Val.ext1 "posterior_mixing_probs" d
  let rec0 := Val.ext4 "primary_decoder" pdv pdp (optVal feat) (pcEmbF data)
  let mass := Val.ext1 "reduce_sum_points" posterior_mixing_probs
  let rec_mode := Val.ext1 "mode" (Val.ext1 "pdf" rec0)
  let pacc := Val.ext3 "classification_probe_acc" mass lab (optVal data.labeled)
  let pracc := Val.ext3 "classification_probe_acc" caps_presence_prob lab
    (optVal data.labeled)
  { primary_presence := pcPresF data
    winner := winner
    soft_winner := Val.ext1 "soft_winner" d
    vote := vote
    vote_presence := vote_presence
    caps_presence_prob := caps_presence_prob
    posterior_mixing_probs := posterior_mixing_probs
    bottom_up_rec := Val.ext4 "primary_decoder" (pcPoseF data) (pcPresF data)
      (optVal feat) (pcEmbF data)
    top_down_rec := Val.ext4 "primary_decoder" winner (pcPresF data)
      (optVal feat) (pcEmbF data)
    rec_primary := rec0
    top_down_per_caps_rec := Val.ext4 "primary_decoder"
      (Val.ext1 "merge_dims_0_2" vote)
      (Val.ext2 "mul" (Val.ext1 "merge_dims_0_2" vote_presence)
        (Val.ext1 "tile_ncaps" (pcPresF data)))
      (optVal (feat.map (fun f => Val.ext1 "tile_ncaps" f)))
      (Val.ext1 "tile_ncaps" (pcEmbF data))
    templates := templatesF ext data
    template_pres := pcPresF data
    used_templates := Val.ext1 "transformed_templates" rec0
    rec_mode := rec_mode
    rec_mean := Val.ext1 "mean" (Val.ext1 "pdf" rec0)
    mse := Val.ext1 "flat_reduce"
      (Val.ext1 "square" (Val.ext2 "sub" (targetXF cfg data) rec_mode))
    rec_ll := Val.ext1 "flat_reduce"
      (Val.ext2 "log_prob" (Val.ext1 "pdf" rec0) (targetXF cfg data))
    posterior_within_sparsity_loss := Val.ext2 "sparsity_loss_within"
      (Val.ext0 cfg.posterior_sparsity_loss_type)
      (Val.ext1 "div_n_points" mass)
    posterior_between_sparsity_loss := Val.ext2 "sparsity_loss_between"
      (Val.ext0 cfg.posterior_sparsity_loss_type)
      (Val.ext1 "div_n_points" mass)
    prior_within_sparsity_loss := Val.ext3 "sparsity_loss_within_const"
      (Val.ext0 cfg.prior_sparsity_loss_type) caps_presence_prob
      (Val.q cfg.prior_within_example_constant)
    prior_between_sparsity_loss := Val.ext2 "sparsity_loss_between"
      (Val.ext0 cfg.prior_sparsity_loss_type) caps_presence_prob
    posterior_cls_xe := some
      (Val.ext3 "classification_probe_xe" mass lab (optVal data.labeled))
    posterior_cls_acc := some pacc
    prior_cls_xe := some (Val.ext3 "classification_probe_xe" caps_presence_prob
      lab (optVal data.labeled))
    prior_cls_acc := some pracc
    best_cls_acc := Val.ext2 "maximum" pracc pacc
    primary_caps_l1 := Val.ext1 "flat_reduce" (pcPresF data)
    weight_decay_loss :=
      if 0 < cfg.weight_decay then Val.ext0 "sum_l2_decay" else Val.q 0 }

/-- `ImageAutoencoder._build` (`scae.py:166-329`) as a symbolic computation
returning either a result record or the Python exception that escaped, plus
the trace of external-call events up to that point. The classification
branch runs only when a label is present; the unconditional
`res.best_cls_acc = tf.maximum(res.prior_cls_acc, res.posterior_cls_acc)`
at `scae.py:314` reads fields that a label-free pass never wrote, which the
result bag reports as an `AttributeError`. -/
def buildScae (cfg : Config) (ext : ExtBehavior) (data : DataRecord) :
    Except PyErr BuildRes × List Event :=
  match tryRegion cfg ext (inputPoseF cfg ext data) (inputPresF cfg data)
      (templatesF ext data) with
  | (Except.error e, evs) =>
      (Except.error e,
       [Event.primaryEncoderCall,
        Event.makeTemplatesCall (templatesF ext data)] ++ evs)
  | (Except.ok hv, evs) =>
    match voteSelect cfg.vote_type (pcPoseF data)
        (Val.ext1 "soft_winner" (decV cfg data hv))
        (Val.ext1 "winner" (decV cfg data hv)) with
    | Except.error e =>
        (Except.error e,
         [Event.primaryEncoderCall,
          Event.makeTemplatesCall (templatesF ext data)] ++ evs ++
           [Event.decoderCall])
    | Except.ok pdv =>
      match presSelect cfg.pres_type (pcPresF data)
          (Val.ext1 "soft_winner_pres" (decV cfg data hv))
          (Val.ext1 "winner_pres" (decV cfg data hv)) with
      | Except.error e =>
          (Except.error e,
           [Event.primaryEncoderCall,
            Event.makeTemplatesCall (templatesF ext data)] ++ evs ++
             [Event.decoderCall])
      | Except.ok pdp =>
        match data.label with
        | none =>
            (Except.error (PyErr.attributeError "prior_cls_acc"),
             [Event.primaryEncoderCall,
              Event.makeTemplatesCall (templatesF ext data)] ++ evs ++
               [Event.decoderCall] ++ tailEvents (templatesF ext data) false)
        | some lab =>
            (Except.ok (mkSuccess cfg ext data hv pdv pdp lab),
             [Event.primaryEncoderCall,
              Event.makeTemplatesCall (templatesF ext data)] ++ evs ++
               [Event.decoderCall] ++ tailEvents (templatesF ext data) true)

/-! ## Loss assembly: `ImageAutoencoder._loss` (`scae.py:331-352`) -/

/-- The scalar fields of the result record that `_loss` reads. The two
classification cross-entropies are optional: they exist on the record only
when the forward pass saw a label. -/
structure LossInputs where
  rec_ll : ℚ
  log_prob : ℚ
  dynamic_weights_l2 : ℚ
  primary_caps_l1 : ℚ
  posterior_within_sparsity_loss : ℚ
  posterior_between_sparsity_loss : ℚ
  prior_within_sparsity_loss : ℚ
  prior_between_sparsity_loss : ℚ
  weight_decay_loss : ℚ
  posterior_cls_xe : Option ℚ
  prior_cls_xe : Option ℚ

/-- The loss-term weights stored by the constructor. -/
structure LossWeights where
  caps_ll_weight : ℚ
  dynamic_l2_weight : ℚ
  primary_caps_sparsity_weight : ℚ
  posterior_within_example_sparsity_weight : ℚ
  posterior_between_example_sparsity_weight : ℚ
  prior_within_example_sparsity_weight : ℚ
  prior_between_example_sparsity_weight : ℚ
  weight_decay : ℚ

/-- `_loss` (`scae.py:331-352`): the weighted sum, then
`loss += res.posterior_cls_xe + res.prior_cls_xe` guarded by
`except AttributeError: pass` — the increment happens exactly when both
fields are present (the first missing field aborts the statement before
`loss` is updated). -/
def scaeLoss (w : LossWeights) (r : LossInputs) : ℚ :=
  let loss := -r.rec_ll - w.caps_ll_weight * r.log_prob +
    w.dynamic_l2_weight * r.dynamic_weights_l2 +
    w.primary_caps_sparsity_weight * r.primary_caps_l1 +
    w.posterior_within_example_sparsity_weight *
      r.posterior_within_sparsity_loss -
    w.posterior_between_example_sparsity_weight *
      r.posterior_between_sparsity_loss +
    w.prior_within_example_sparsity_weight * r.prior_within_sparsity_loss -
    w.prior_between_example_sparsity_weight * r.prior_between_sparsity_loss +
    w.weight_decay * r.weight_decay_loss
  match r.posterior_cls_xe, r.prior_cls_xe with
  | some a, some b => loss + (a + b)
  | _, _ => loss

/-! ## Helper lemmas -/

lemma le_foldl_max (l : List ℚ) (a : ℚ) : a ≤ l.foldl max a := by
  induction l generalizing a with
  | nil => simp
  | cons x xs ih =>
      simp only [List.foldl_cons]
      exact le_trans (le_max_left a x) (ih (max a x))

lemma mem_le_foldl_max {b : ℚ} {l : List ℚ} (a : ℚ) (hb : b ∈ l) :
    b ≤ l.foldl max a := by
  induction l generalizing a with
  | nil => cases hb
  | cons x xs ih =>
      simp only [List.foldl_cons]
      rcases List.mem_cons.1 hb with h | h
      · subst h
        exact le_trans (le_max_right a b) (le_foldl_max xs (max a b))
      · exact ih (max a x) h

lemma foldl_max_mem (l : List ℚ) (a : ℚ) :
    l.foldl max a = a ∨ l.foldl max a ∈ l := by
  induction l generalizing a with
  | nil => exact Or.inl rfl
  | cons x xs ih =>
      simp only [List.foldl_cons]
      rcases ih (max a x) with h | h
      · rcases max_choice a x with hax | hax
        · exact Or.inl (h.trans hax)
        · exact Or.inr (List.mem_cons.2 (Or.inl (h.trans hax)))
      · exact Or.inr (List.mem_cons.2 (Or.inr h))

lemma listMax_mem {l : List ℚ} (hl : l ≠ []) : listMax l ∈ l := by
  match l with
  | x :: xs =>
      simp only [listMax]
      rcases foldl_max_mem xs x with h | h
      · rw [h]; exact List.mem_cons_self x xs
      · exact List.mem_cons.2 (Or.inr h)

lemma le_listMax {b : ℚ} {l : List ℚ} (hb : b ∈ l) : b ≤ listMax l := by
  match l with
  | x :: xs =>
      simp only [listMax]
      rcases List.mem_cons.1 hb with h | h
      · subst h
        exact le_foldl_max xs b
      · exact mem_le_foldl_max x h

lemma getD_range_map (f : Nat → ℚ) (n j : Nat) (h : j < n) :
    ((List.range n).map f).getD j 0 = f j := by
  rw [List.getD_eq_getElem _ _ (by simpa using h)]
  simp

/-- Data of `k` concatenated copies of `l` has length `k * l.length`. -/
lemma tileList_length (k : Nat) (l : List ℚ) :
    ((List.range k).flatMap (fun _ => l)).length = k * l.length := by
  induction k with
  | zero => simp
  | succ n ih =>
      rw [List.range_succ, List.flatMap_append, List.length_append, ih]
      simp [Nat.succ_mul]

/-- Indexing into `k` concatenated copies of `l`. -/
lemma tileList_getD (k : Nat) (l : List ℚ) (m off : Nat) (hm : m < k)
    (hoff : off < l.length) :
    ((List.range k).flatMap (fun _ => l)).getD (m * l.length + off) 0 =
      l.getD off 0 := by
  induction k with
  | zero => omega
  | succ n ih =>
      rw [List.range_succ, List.flatMap_append]
      rcases Nat.lt_or_ge m n with h | h
      · rw [List.getD_append]
        · exact ih h
        · rw [tileList_length]
          calc m * l.length + off < m * l.length + l.length := by omega
            _ = (m + 1) * l.length := by ring
            _ ≤ n * l.length := Nat.mul_le_mul_right _ (by omega)
      · have hm' : m = n := by omega
        subst hm'
        rw [List.getD_append_right]
        · rw [tileList_length]
          simp only [List.flatMap_cons, List.flatMap_nil, List.append_nil]
          congr 1
          omega
        · rw [tileList_length]
          exact Nat.le_add_right _ _

/-- Length of the sliced blocks produced by `sliceDropPenultimate` on
`p = q = 3` blocks: each of the `n` trailing `9`-blocks contributes its
first `6` entries. -/
lemma sliceBlocks9_length (n : Nat) (d : List ℚ) (hd : 9 * n ≤ d.length) :
    ((List.range n).flatMap (fun i => ((d.drop (i * 9)).take 6))).length =
      6 * n := by
  induction n with
  | zero => simp
  | succ m ih =>
      rw [List.range_succ, List.flatMap_append, List.length_append,
        ih (by omega)]
      simp only [List.flatMap_cons, List.flatMap_nil, List.append_nil,
        List.length_take, List.length_drop]
      omega

/-! ## Claim C1: loss assembly -/

/-- C1: the assembled scalar loss equals
`-rec_ll - caps_ll_weight * log_prob + dynamic_l2_weight * dynamic_weights_l2
+ primary_caps_sparsity_weight * primary_caps_l1
+ posterior_within_example_sparsity_weight * posterior_within_sparsity_loss
- posterior_between_example_sparsity_weight * posterior_between_sparsity_loss
+ prior_within_example_sparsity_weight * prior_within_sparsity_loss
- prior_between_example_sparsity_weight * prior_between_sparsity_loss
+ weight_decay * weight_decay_loss`, with the two between-example sparsity
terms subtracted (growing them strictly lowers the loss, last two
conjuncts) and the posterior and prior classification cross-entropies added
exactly when both are present on the result record. -/
theorem loss_formula (w : LossWeights) (r : LossInputs) :
    (∀ a b, r.posterior_cls_xe = some a → r.prior_cls_xe = some b →
      scaeLoss w r =
        -r.rec_ll - w.caps_ll_weight * r.log_prob +
        w.dynamic_l2_weight * r.dynamic_weights_l2 +
        w.primary_caps_sparsity_weight * r.primary_caps_l1 +
        w.posterior_within_example_sparsity_weight *
          r.posterior_within_sparsity_loss -
        w.posterior_between_example_sparsity_weight *
          r.posterior_between_sparsity_loss +
        w.prior_within_example_sparsity_weight *
          r.prior_within_sparsity_loss -
        w.prior_between_example_sparsity_weight *
          r.prior_between_sparsity_loss +
        w.weight_decay * r.weight_decay_loss + a + b) ∧
    (r.posterior_cls_xe = none ∨ r.prior_cls_xe = none →
      scaeLoss w r =
        -r.rec_ll - w.caps_ll_weight * r.log_prob +
        w.dynamic_l2_weight * r.dynamic_weights_l2 +
        w.primary_caps_sparsity_weight * r.primary_caps_l1 +
        w.posterior_within_example_sparsity_weight *
          r.posterior_within_sparsity_loss -
        w.posterior_between_example_sparsity_weight *
          r.posterior_between_sparsity_loss +
        w.prior_within_example_sparsity_weight *
          r.prior_within_sparsity_loss -
        w.prior_between_example_sparsity_weight *
          r.prior_between_sparsity_loss +
        w.weight_decay * r.weight_decay_loss) ∧
    (∀ dlt : ℚ,
      scaeLoss w { r with posterior_between_sparsity_loss :=
        r.posterior_between_sparsity_loss + dlt } =
      scaeLoss w r - w.posterior_between_example_sparsity_weight * dlt) ∧
    (∀ dlt : ℚ,
      scaeLoss w { r with prior_between_sparsity_loss :=
        r.prior_between_sparsity_loss + dlt } =
      scaeLoss w r - w.prior_between_example_sparsity_weight * dlt) := by
  refine ⟨?_, ?_, ?_, ?_⟩
  · intro a b ha hb
    simp only [scaeLoss, ha, hb]
    ring
  · intro h
    rcases h with h | h
    · simp only [scaeLoss, h] <;> ring
    · rcases hp : r.posterior_cls_xe with _ | a <;>
        simp only [scaeLoss, h, hp] <;> ring
  · intro dlt
    rcases hp : r.posterior_cls_xe with _ | a <;>
      rcases hq : r.prior_cls_xe with _ | b <;>
      simp only [scaeLoss, hp, hq] <;> ring
  · intro dlt
    rcases hp : r.posterior_cls_xe with _ | a <;>
      rcases hq : r.prior_cls_xe with _ | b <;>
      simp only [scaeLoss, hp, hq] <;> ring

/-- Concrete instance of `loss_formula` with both classification terms
present: all inputs `1..9`, all weights `1`, cross-entropies `10` and `11`. -/
theorem loss_formula_witness :
    scaeLoss
      { caps_ll_weight := 1, dynamic_l2_weight := 1,
        primary_caps_sparsity_weight := 1,
        posterior_within_example_sparsity_weight := 1,
        posterior_between_example_sparsity_weight := 1,
        prior_within_example_sparsity_weight := 1,
        prior_between_example_sparsity_weight := 1, weight_decay := 1 }
      { rec_ll := 1, log_prob := 2, dynamic_weights_l2 := 3,
        primary_caps_l1 := 4, posterior_within_sparsity_loss := 5,
        posterior_between_sparsity_loss := 6,
        prior_within_sparsity_loss := 7, prior_between_sparsity_loss := 8,
        weight_decay_loss := 9, posterior_cls_xe := some 10,
        prior_cls_xe := some 11 } = 32 := by
  rw [(loss_formula _ _).1 10 11 rfl rfl]
  norm_num

/-! ## Claim C10: hard-coded vote shape of `ImageCapsule` -/

/-- C10: the vote shape `[batch_size, n_caps, n_votes, 6]` is hard-coded:
the result never depends on the configured `n_caps_dims`, a successful
build always returns a vote of that exact shape, and the reshape fails
(returns `none`) whenever the sliced vote tensor does not hold exactly
`batch_size * n_caps * n_votes * 6` elements. -/
theorem imageCapsule_vote_shape_hardcoded (d₁ d₂ B C V : Nat) (raw : Tensor)
    (vpp : List ℚ) :
    imageCapsuleBuild d₁ B C V raw vpp = imageCapsuleBuild d₂ B C V raw vpp ∧
    (∀ r, imageCapsuleBuild d₁ B C V raw vpp = some r →
      r.vote.shape = [B, C, V, 6]) ∧
    (∀ s, sliceDropPenultimate raw = some s →
      s.data.length ≠ B * C * V * 6 →
      imageCapsuleBuild d₁ B C V raw vpp = none) := by
  have hprod : ([B, C, V, 6] : List Nat).prod = B * C * V * 6 := by
    simp [List.prod_cons]
    ring
  refine ⟨rfl, ?_, ?_⟩
  · intro r hr
    unfold imageCapsuleBuild at hr
    rcases h1 : sliceDropPenultimate raw with _ | s
    · rw [h1] at hr; simp at hr
    · rw [h1] at hr
      simp only [Option.some_bind] at hr
      unfold tfReshape at hr
      by_cases h2 : s.data.length = ([B, C, V, 6] : List Nat).prod
      · rw [if_pos h2] at hr
        simp only [Option.some_bind] at hr
        by_cases h3 : vpp.length = B * C * V
        · rw [if_pos h3] at hr
          cases hr
          rfl
        · rw [if_neg h3] at hr; cases hr
      · rw [if_neg h2] at hr; simp at hr
  · intro s h1 h2
    unfold imageCapsuleBuild tfReshape
    rw [h1]
    simp only [Option.some_bind]
    rw [if_neg (by rw [hprod]; exact h2)]
    simp

/-- The raw vote tensor of a single 3×3-matrix vote, entries `1..9`. -/
def raw911 : Tensor := ⟨[1, 1, 1, 3, 3], [1, 2, 3, 4, 5, 6, 7, 8, 9]⟩

/-- Concrete instance of `imageCapsule_vote_shape_hardcoded`: a `1×1×1`
configuration with a 3×3 vote yields shape `[1, 1, 1, 6]` independently of
`n_caps_dims`, and the reshape refuses a sliced tensor of 6 elements when
`batch * caps * votes * 6 = 12`. -/
theorem imageCapsule_vote_shape_hardcoded_witness :
    (∃ r, imageCapsuleBuild 2 1 1 1 raw911 [(1 : ℚ)] = some r ∧
      r.vote.shape = [1, 1, 1, 6]) ∧
    imageCapsuleBuild 2 1 1 2 raw911 [(1 : ℚ), 0] = none := by
  constructor
  · refine ⟨⟨⟨[1, 1, 1, 6], [1, 2, 3, 4, 5, 6]⟩,
      ⟨[1, 1, 1, 6], [1, 2, 3, 4, 5, 6]⟩, [(1 : ℚ)]⟩, by decide, ?_⟩
    exact (imageCapsule_vote_shape_hardcoded 2 5 1 1 1 raw911
      [(1 : ℚ)]).2.1 _ (by decide)
  · exact (imageCapsule_vote_shape_hardcoded 2 5 1 1 2 raw911
      [(1 : ℚ), 0]).2.2 ⟨[1, 1, 1, 2, 3], [1, 2, 3, 4, 5, 6]⟩
      (by decide) (by decide)

/-! ## Claim C9: the vote slice -/

/-- C9 fails on the code: for a concrete single 3×3 vote with entries
`1..9`, the slice `[..., :-1, :]` keeps `[1..6]` — it drops the three
entries of the last row of the second-to-last axis, not a single auxiliary
last coordinate (which would leave 8 of 9 entries); the claim's own reading
(`vote_dim+1 = 7` trailing fields, last one dropped) does not even reshape:
on a `[1,1,1,7]` vote tensor the build returns `none`. The likelihood input
already equals the sliced vote, so nothing is "discarded after its use in
likelihood computation". -/
theorem vote_slice_counterexample :
    (∃ r, imageCapsuleBuild 2 1 1 1 raw911 [(1 : ℚ)] = some r ∧
      r.vote.data = [1, 2, 3, 4, 5, 6] ∧
      r.vote.data.length ≠ raw911.data.length - 1 ∧
      r.likelihood_votes = r.vote) ∧
    (dropLastCoordinate raw911).map Tensor.data =
      some [1, 2, 4, 5, 7, 8] ∧
    ¬ ((imageCapsuleBuild 2 1 1 1 raw911 [(1 : ℚ)]).map
        (fun r => r.vote.data) =
      (dropLastCoordinate raw911).map Tensor.data) ∧
    imageCapsuleBuild 2 1 1 1 ⟨[1, 1, 1, 7], [1, 2, 3, 4, 5, 6, 7]⟩
      [(1 : ℚ)] = none := by
  refine ⟨⟨⟨⟨[1, 1, 1, 6], [1, 2, 3, 4, 5, 6]⟩,
    ⟨[1, 1, 1, 6], [1, 2, 3, 4, 5, 6]⟩, [(1 : ℚ)]⟩,
    by decide, by decide, by decide, by decide⟩,
    by decide, by decide, by decide⟩

/-- C9 (amended): for a capsule layer emitting 3×3 pose-matrix votes
(`[B, C, V, 3, 3]`), `ImageCapsule._build` drops the last slice of the
second-to-last axis — the last matrix row, i.e. three trailing fields per
vote, not one — reshapes the remainder to `[B, C, V, 6]`, and does so
BEFORE the likelihood computation, which receives exactly the reshaped
6-field votes; downstream consumers only ever see 6 fields per vote. -/
theorem vote_slice_amended (nCapsDims B C V : Nat) (d vpp : List ℚ)
    (hd : d.length = B * C * V * 9) (hvpp : vpp.length = B * C * V) :
    ∃ r, imageCapsuleBuild nCapsDims B C V ⟨[B, C, V, 3, 3], d⟩ vpp =
        some r ∧
      r.vote.shape = [B, C, V, 6] ∧
      r.vote.data = (List.range (B * C * V)).flatMap
        (fun i => ((d.drop (i * 9)).take 6)) ∧
      r.likelihood_votes = r.vote := by
  have hn : ([V, C, B] : List Nat).prod = B * C * V := by
    simp only [List.prod_cons, List.prod_nil]
    ring
  have hslice : sliceDropPenultimate ⟨[B, C, V, 3, 3], d⟩ =
      some ⟨[B, C, V, 2, 3], (List.range (B * C * V)).flatMap
        (fun i => ((d.drop (i * 9)).take 6))⟩ := by
    rw [show sliceDropPenultimate ⟨[B, C, V, 3, 3], d⟩ =
      some ⟨[B, C, V, 2, 3],
        (List.range (([V, C, B] : List Nat).prod)).flatMap
          (fun i => ((d.drop (i * (3 * 3))).take ((3 - 1) * 3)))⟩ from rfl,
      hn]
  have hlen : ((List.range (B * C * V)).flatMap
      (fun i => ((d.drop (i * 9)).take 6))).length = 6 * (B * C * V) := by
    refine sliceBlocks9_length _ _ (le_of_eq ?_)
    rw [hd]
    ring
  have hresh : tfReshape
      ⟨[B, C, V, 2, 3], (List.range (B * C * V)).flatMap
        (fun i => ((d.drop (i * 9)).take 6))⟩ [B, C, V, 6] =
      some ⟨[B, C, V, 6], (List.range (B * C * V)).flatMap
        (fun i => ((d.drop (i * 9)).take 6))⟩ := by
    unfold tfReshape
    rw [if_pos]
    rw [hlen]
    simp only [List.prod_cons, List.prod_nil]
    ring
  refine ⟨⟨⟨[B, C, V, 6], (List.range (B * C * V)).flatMap
      (fun i => ((d.drop (i * 9)).take 6))⟩,
    ⟨[B, C, V, 6], (List.range (B * C * V)).flatMap
      (fun i => ((d.drop (i * 9)).take 6))⟩,
    capsPresenceProb B C V vpp⟩, ?_, rfl, rfl, rfl⟩
  unfold imageCapsuleBuild
  rw [hslice]
  simp only [Option.some_bind]
  rw [hresh]
  simp only [Option.some_bind]
  rw [if_pos hvpp]

/-- Concrete instance of `vote_slice_amended`: one 3×3 vote, entries
`1..9`, is cut down to its first two rows `[1..6]`. -/
theorem vote_slice_amended_witness :
    ∃ r, imageCapsuleBuild 2 1 1 1 ⟨[1, 1, 1, 3, 3],
        [1, 2, 3, 4, 5, 6, 7, 8, 9]⟩ [(1 : ℚ)] = some r ∧
      r.vote.shape = [1, 1, 1, 6] ∧
      r.vote.data = (List.range (1 * 1 * 1)).flatMap
        (fun i => ((([1, 2, 3, 4, 5, 6, 7, 8, 9] : List ℚ).drop
          (i * 9)).take 6)) ∧
      r.likelihood_votes = r.vote :=
  vote_slice_amended 2 1 1 1 [1, 2, 3, 4, 5, 6, 7, 8, 9] [(1 : ℚ)]
    (by decide) (by decide)

/-! ## Claim C2: per-capsule presence aggregation -/

/-- C2: the returned `caps_presence_prob` is, for each capsule slot
`j = b * n_caps + c`, the maximum over that capsule's `n_votes` votes of
`vote_presence_prob` — an upper bound on every vote that is itself attained
by one of them (so neither the sum nor the mean) — and when every
`vote_presence_prob` entry lies in `[0, 1]`, every `caps_presence_prob`
entry lies in `[0, 1]`. -/
theorem caps_presence_is_max (nCapsDims B C V : Nat) (raw : Tensor)
    (vpp : List ℚ) (r : ImageCapsuleRes) (hV : 0 < V)
    (hr : imageCapsuleBuild nCapsDims B C V raw vpp = some r) :
    (∀ j, j < B * C →
      (∀ v, v < V →
        vpp.getD (j * V + v) 0 ≤ r.caps_presence_prob.getD j 0) ∧
      (∃ v, v < V ∧
        r.caps_presence_prob.getD j 0 = vpp.getD (j * V + v) 0)) ∧
    ((∀ i, i < B * C * V → 0 ≤ vpp.getD i 0 ∧ vpp.getD i 0 ≤ 1) →
      ∀ j, j < B * C → 0 ≤ r.caps_presence_prob.getD j 0 ∧
        r.caps_presence_prob.getD j 0 ≤ 1) := by
  have hcp : r.caps_presence_prob = capsPresenceProb B C V vpp := by
    unfold imageCapsuleBuild at hr
    rcases h1 : sliceDropPenultimate raw with _ | s
    · rw [h1] at hr; simp at hr
    · rw [h1] at hr
      simp only [Option.some_bind] at hr
      rcases h2 : tfReshape s [B, C, V, 6] with _ | v
      · rw [h2] at hr; simp at hr
      · rw [h2] at hr
        simp only [Option.some_bind] at hr
        by_cases h3 : vpp.length = B * C * V
        · rw [if_pos h3] at hr
          cases hr
          rfl
        · rw [if_neg h3] at hr; cases hr
  have hj_eq : ∀ j, j < B * C → r.caps_presence_prob.getD j 0 =
      listMax ((List.range V).map (fun v => vpp.getD (j * V + v) 0)) := by
    intro j hj
    rw [hcp]
    exact getD_range_map _ _ _ hj
  have hidx : ∀ j v, j < B * C → v < V → j * V + v < B * C * V := by
    intro j v hj hv
    calc j * V + v < j * V + V := by omega
      _ = (j + 1) * V := (Nat.succ_mul j V).symm
      _ ≤ B * C * V := Nat.mul_le_mul_right V hj
  have hne : ∀ j, ((List.range V).map
      (fun v => vpp.getD (j * V + v) 0)) ≠ [] := by
    intro j
    apply List.ne_nil_of_length_pos
    simpa using hV
  constructor
  · intro j hj
    rw [hj_eq j hj]
    constructor
    · intro v hv
      exact le_listMax (List.mem_map.2 ⟨v, List.mem_range.2 hv, rfl⟩)
    · rcases List.mem_map.1 (listMax_mem (hne j)) with ⟨v, hv, hveq⟩
      exact ⟨v, List.mem_range.1 hv, hveq.symm⟩
  · intro hbound j hj
    rw [hj_eq j hj]
    rcases List.mem_map.1 (listMax_mem (hne j)) with ⟨v, hv, hveq⟩
    have hv' := List.mem_range.1 hv
    constructor
    · rw [← hveq]
      exact (hbound _ (hidx j v hj hv')).1
    · rw [← hveq]
      exact (hbound _ (hidx j v hj hv')).2

/-- Concrete instance of `caps_presence_is_max`: two capsules with two
votes each; the per-capsule presences are the maxima of the vote pairs,
and they stay in `[0, 1]`. -/
theorem caps_presence_is_max_witness :
    (∀ v, v < 2 → ([(0 : ℚ), 1, 1/4, 3/4] : List ℚ).getD (0 * 2 + v) 0 ≤
      (capsPresenceProb 1 2 2 [(0 : ℚ), 1, 1/4, 3/4]).getD 0 0) ∧
    (∃ v, v < 2 ∧ (capsPresenceProb 1 2 2 [(0 : ℚ), 1, 1/4, 3/4]).getD 0 0 =
      ([(0 : ℚ), 1, 1/4, 3/4] : List ℚ).getD (0 * 2 + v) 0) := by
  have h := caps_presence_is_max 2 1 2 2
    ⟨[1, 2, 2, 3, 3], [1, 2, 3, 4, 5, 6, 7, 8, 9,
      1, 2, 3, 4, 5, 6, 7, 8, 9, 1, 2, 3, 4, 5, 6, 7, 8, 9,
      1, 2, 3, 4, 5, 6, 7, 8, 9]⟩
    [(0 : ℚ), 1, 1/4, 3/4]
    ⟨⟨[1, 2, 2, 6], [1, 2, 3, 4, 5, 6, 1, 2, 3, 4, 5, 6,
      1, 2, 3, 4, 5, 6, 1, 2, 3, 4, 5, 6]⟩,
     ⟨[1, 2, 2, 6], [1, 2, 3, 4, 5, 6, 1, 2, 3, 4, 5, 6,
      1, 2, 3, 4, 5, 6, 1, 2, 3, 4, 5, 6]⟩,
     capsPresenceProb 1 2 2 [(0 : ℚ), 1, 1/4, 3/4]⟩
    (by decide) rfl
  exact (h.1 0 (by decide))

/-! ## Claim C8: the per-capsule reconstruction path -/

/-- C8 fails on the code: with `B = 1`, `n_caps = 2`, `n_votes = 3`,
`snt.MergeDims(0, 2)` merges only the batch and capsule axes — the decode
input has shape `[2, 3, 6]`, i.e. one rendered image per capsule (each
consuming that capsule's 3 votes as its parts), not the
`1 * 2 * 3 = 6` images per (capsule, vote) pair the claim announces. -/
theorem per_caps_flatten_counterexample :
    ((perCapsRecArgs ⟨[1, 2, 3, 6], List.replicate 36 0⟩
        ⟨[1, 2, 3], List.replicate 6 0⟩ ⟨[1, 3], List.replicate 3 0⟩ none
        ⟨[1, 2], List.replicate 2 0⟩).map (fun a => a.pose.shape)) =
      some [2, 3, 6] ∧
    ¬ (((perCapsRecArgs ⟨[1, 2, 3, 6], List.replicate 36 0⟩
        ⟨[1, 2, 3], List.replicate 6 0⟩ ⟨[1, 3], List.replicate 3 0⟩ none
        ⟨[1, 2], List.replicate 2 0⟩).map
          (fun a => a.pose.shape.headD 0)) = some (1 * 2 * 3)) :=
  ⟨by decide, by decide⟩

/-- C8 (amended): the per-capsule path merges only the capsule axis into
the batch axis (`MergeDims(0, 2)` on the two leading axes): the decode
pose is `[B * n_caps, n_votes, 6]` with unchanged flat data, producing one
rendered image per capsule per example, each decoding that capsule's
`n_votes` votes jointly. Presence, feature and image embedding are tiled
`n_caps` times along the batch axis by whole-batch repetition, so merged
row `j` receives the conditioning of original example `j mod B` (the
presence fed to the decode is the elementwise product of the merged vote
presence and that tiled presence). -/
theorem per_caps_flatten_amended (B C V E : Nat) (vd vpd pd ed : List ℚ)
    (hB : 0 < B) (hpd : pd.length = B * V) :
    ∃ args, perCapsRecArgs ⟨[B, C, V, 6], vd⟩ ⟨[B, C, V], vpd⟩
        ⟨[B, V], pd⟩ none ⟨[B, E], ed⟩ = some args ∧
      args.pose = ⟨[B * C, V, 6], vd⟩ ∧
      args.img_embedding =
        ⟨[B * C, E], (List.range C).flatMap (fun _ => ed)⟩ ∧
      args.feature = none ∧
      args.pres = ⟨[B * C, V], List.zipWith (· * ·) vpd
        ((List.range C).flatMap (fun _ => pd))⟩ ∧
      (∀ j r, j < B * C → r < V →
        ((List.range C).flatMap (fun _ => pd)).getD (j * V + r) 0 =
          pd.getD ((j % B) * V + r) 0) := by
  refine ⟨⟨⟨[B * C, V, 6], vd⟩,
    ⟨[B * C, V], List.zipWith (· * ·) vpd
      ((List.range C).flatMap (fun _ => pd))⟩, none,
    ⟨[B * C, E], (List.range C).flatMap (fun _ => ed)⟩⟩,
    ?_, rfl, rfl, rfl, rfl, ?_⟩
  · simp [perCapsRecArgs, tileByDim0, mergeDims02, elemwiseMul]
  · intro j r hj hr
    have hjb : j % B < B := Nat.mod_lt _ hB
    have hoff : (j % B) * V + r < pd.length := by
      rw [hpd]
      calc (j % B) * V + r < (j % B) * V + V := by omega
        _ = (j % B + 1) * V := (Nat.succ_mul _ _).symm
        _ ≤ B * V := Nat.mul_le_mul_right V hjb
    have hm : j / B < C := by
      rw [Nat.div_lt_iff_lt_mul hB]
      calc j < B * C := hj
        _ = C * B := Nat.mul_comm _ _
    have hkey : j * V + r = (j / B) * pd.length + ((j % B) * V + r) := by
      rw [hpd]
      have hdm : B * (j / B) + j % B = j := Nat.div_add_mod j B
      calc j * V + r = (B * (j / B) + j % B) * V + r := by rw [hdm]
        _ = (j / B) * (B * V) + ((j % B) * V + r) := by ring
    rw [hkey]
    exact tileList_getD C pd (j / B) _ hm hoff

/-- Concrete instance of `per_caps_flatten_amended`: `B = 2` examples,
`n_caps = 2`, one vote per capsule. -/
theorem per_caps_flatten_amended_witness :
    ∃ args, perCapsRecArgs ⟨[2, 2, 1, 6], List.replicate 24 0⟩
        ⟨[2, 2, 1], [1, 2, 3, 4]⟩ ⟨[2, 1], [5, 6]⟩ none
        ⟨[2, 1], [7, 8]⟩ = some args ∧
      args.pose = ⟨[2 * 2, 1, 6], List.replicate 24 0⟩ ∧
      args.img_embedding =
        ⟨[2 * 2, 1], (List.range 2).flatMap (fun _ => [7, 8])⟩ ∧
      args.feature = none ∧
      args.pres = ⟨[2 * 2, 1], List.zipWith (· * ·) [1, 2, 3, 4]
        ((List.range 2).flatMap (fun _ => [5, 6]))⟩ ∧
      (∀ j r, j < 2 * 2 → r < 1 →
        ((List.range 2).flatMap (fun _ => ([5, 6] : List ℚ))).getD
            (j * 1 + r) 0 =
          ([5, 6] : List ℚ).getD ((j % 2) * 1 + r) 0) :=
  per_caps_flatten_amended 2 2 1 1 (List.replicate 24 0) [1, 2, 3, 4]
    [5, 6] [7, 8] (by decide) (by decide)

/-! ## Concrete fixtures for the forward-pass claims -/

/-- A well-behaved external environment: the two-argument encoder call
succeeds, templates tile cleanly, no per-part feature. -/
def extOkW : ExtBehavior :=
  { twoArg := fun a b => Except.ok (Val.ext2 "enc2" a b),
    oneArg := fun a => Except.ok (Val.ext1 "enc1" a),
    tileErr := none, templatesShape0IsOne := false, pcHasFeature := false }

/-- An encoder whose body raises a `TypeError` that is NOT an
argument-count mismatch. -/
def extBodyTypeErrW : ExtBehavior :=
  { extOkW with twoArg := fun _ _ =>
      Except.error (PyErr.typeError "encoder_body") }

/-- Template tiling inside the `try` block raises a `TypeError`. -/
def extTileTypeErrW : ExtBehavior :=
  { extOkW with tileErr := some (PyErr.typeError "template_tiling") }

/-- The encoder raises a non-`TypeError` exception. -/
def extNonTypeErrW : ExtBehavior :=
  { extOkW with twoArg := fun _ _ => Except.error (PyErr.other "boom") }

/-- A plain valid configuration. -/
def cfgW : Config :=
  { vote_type := "soft", pres_type := "enc", prep := "none",
    stop_grad_caps_inpt := false, stop_grad_caps_target := false,
    feed_templates := true, weight_decay := 0,
    posterior_sparsity_loss_type := "kl", prior_sparsity_loss_type := "kl",
    prior_within_example_constant := 0 }

/-- `cfgW` with an invalid `vote_type`. -/
def cfgBogusW : Config := { cfgW with vote_type := "bogus" }

/-- A data record carrying a label. -/
def dataLabelW : DataRecord :=
  { img := Val.ext0 "img", label := some (Val.ext0 "label"), labeled := none }

/-- A data record without a label (no label key configured, or the field
absent). -/
def dataNoLabelW : DataRecord :=
  { img := Val.ext0 "img", label := none, labeled := none }

/-! ## Claim C3: label-free forward pass -/

/-- C3 is right about the intent but the code violates it: on a label-free
record the classification branch is skipped (no probe events in the
trace), yet the pass does NOT complete — the unconditional
`res.best_cls_acc = tf.maximum(res.prior_cls_acc, res.posterior_cls_acc)`
at `scae.py:314` reads the never-written `prior_cls_acc` field and raises.
Everything up to that line (decoder call, all four primary-decoder calls,
both sparsity calls) has already run. -/
theorem missing_label_crash :
    (buildScae cfgW extOkW dataNoLabelW).fst =
      Except.error (PyErr.attributeError "prior_cls_acc") ∧
    Event.decoderCall ∈ (buildScae cfgW extOkW dataNoLabelW).snd ∧
    Event.sparsityCall "prior" ∈ (buildScae cfgW extOkW dataNoLabelW).snd ∧
    Event.primaryDecoderCall "per_caps"
        (some (templatesF extOkW dataNoLabelW)) ∈
      (buildScae cfgW extOkW dataNoLabelW).snd ∧
    Event.probeCall "posterior" ∉ (buildScae cfgW extOkW dataNoLabelW).snd ∧
    Event.probeCall "prior" ∉ (buildScae cfgW extOkW dataNoLabelW).snd :=
  ⟨by decide, by decide, by decide, by decide, by decide, by decide⟩

/-! ## Claim C4: invalid selector values -/

/-- C4 fails on the code: with `vote_type = "bogus"` the pass does raise
the descriptive `ValueError`, but only AFTER the primary encoder, the
object-capsule encoder and the capsule decoder have all run — the trace
below contains their calls before the error, contradicting "before any
tensor computation is attempted". -/
theorem invalid_vote_type_counterexample :
    (buildScae cfgBogusW extOkW dataLabelW).fst =
      Except.error (PyErr.valueError "Invalid vote_type=\"bogus\"\".") ∧
    Event.primaryEncoderCall ∈ (buildScae cfgBogusW extOkW dataLabelW).snd ∧
    Event.encoderTwoArgCall ∈ (buildScae cfgBogusW extOkW dataLabelW).snd ∧
    Event.decoderCall ∈ (buildScae cfgBogusW extOkW dataLabelW).snd :=
  ⟨by decide, by decide, by decide, by decide⟩

/-- A successful `tryFirst` under a total two-argument encoder. -/
lemma tryFirst_ok_of_total (cfg : Config) (ext : ExtBehavior)
    (ip ipr T : Val) (henc : ∀ a b, ∃ v, ext.twoArg a b = Except.ok v)
    (htile : ext.tileErr = none) :
    ∃ hv, tryFirst cfg ext ip ipr T =
      (Except.ok hv, [Event.encoderTwoArgCall]) := by
  unfold tryFirst
  by_cases hf : cfg.feed_templates
  · rw [if_pos hf, htile]
    dsimp only
    obtain ⟨v, hv⟩ := henc _ ipr
    exact ⟨v, by rw [hv]⟩
  · rw [if_neg hf]
    obtain ⟨v, hv⟩ := henc ip ipr
    exact ⟨v, by rw [hv]⟩

/-- A successful `tryRegion` under a total two-argument encoder. -/
lemma tryRegion_ok_of_total (cfg : Config) (ext : ExtBehavior)
    (ip ipr T : Val) (henc : ∀ a b, ∃ v, ext.twoArg a b = Except.ok v)
    (htile : ext.tileErr = none) :
    ∃ hv, tryRegion cfg ext ip ipr T =
      (Except.ok hv, [Event.encoderTwoArgCall]) := by
  obtain ⟨v, hv⟩ := tryFirst_ok_of_total cfg ext ip ipr T henc htile
  exact ⟨v, by unfold tryRegion; rw [hv]⟩

/-- C4 (amended): an invalid `vote_type` (resp. a valid `vote_type` with an
invalid `pres_type`) makes the forward pass raise the descriptive
`ValueError` naming the selector — never silently defaulted — but only
after the encoders and the capsule decoder have run, and before any
primary-decoder reconstruction call. -/
theorem invalid_selector_amended (cfg : Config) (ext : ExtBehavior)
    (data : DataRecord)
    (henc : ∀ a b, ∃ v, ext.twoArg a b = Except.ok v)
    (htile : ext.tileErr = none) :
    (cfg.vote_type ∉ (["enc", "soft", "hard"] : List String) →
      (buildScae cfg ext data).fst = Except.error (PyErr.valueError
        ("Invalid vote_type=\"" ++ cfg.vote_type ++ "\"\".")) ∧
      Event.decoderCall ∈ (buildScae cfg ext data).snd ∧
      Event.encoderTwoArgCall ∈ (buildScae cfg ext data).snd ∧
      (∀ tag t, Event.primaryDecoderCall tag t ∉
        (buildScae cfg ext data).snd)) ∧
    (cfg.vote_type ∈ (["enc", "soft", "hard"] : List String) →
      cfg.pres_type ∉ (["enc", "soft", "hard"] : List String) →
      (buildScae cfg ext data).fst = Except.error (PyErr.valueError
        ("Invalid pres_type=\"" ++ cfg.pres_type ++ "\"\".")) ∧
      Event.decoderCall ∈ (buildScae cfg ext data).snd ∧
      (∀ tag t, Event.primaryDecoderCall tag t ∉
        (buildScae cfg ext data).snd)) := by
  obtain ⟨hv, htr⟩ := tryRegion_ok_of_total cfg ext
    (inputPoseF cfg ext data) (inputPresF cfg data) (templatesF ext data)
    henc htile
  constructor
  · intro hvt
    simp only [List.mem_cons, List.not_mem_nil, or_false, not_or] at hvt
    obtain ⟨h1, h2, h3⟩ := hvt
    have hsel : voteSelect cfg.vote_type (pcPoseF data)
        (Val.ext1 "soft_winner" (decV cfg data hv))
        (Val.ext1 "winner" (decV cfg data hv)) =
        Except.error (PyErr.valueError
          ("Invalid vote_type=\"" ++ cfg.vote_type ++ "\"\".")) := by
      unfold voteSelect
      rw [if_neg h1, if_neg h2, if_neg h3]
    unfold buildScae
    rw [htr]
    dsimp only
    rw [hsel]
    refine ⟨rfl, by simp, by simp, ?_⟩
    intro tag t
    simp
  · intro hvt hpt
    simp only [List.mem_cons, List.not_mem_nil, or_false, not_or] at hpt
    obtain ⟨h1, h2, h3⟩ := hpt
    have hsel : presSelect cfg.pres_type (pcPresF data)
        (Val.ext1 "soft_winner_pres" (decV cfg data hv))
        (Val.ext1 "winner_pres" (decV cfg data hv)) =
        Except.error (PyErr.valueError
          ("Invalid pres_type=\"" ++ cfg.pres_type ++ "\"\".")) := by
      unfold presSelect
      rw [if_neg h1, if_neg h2, if_neg h3]
    unfold buildScae
    rw [htr]
    dsimp only
    simp only [List.mem_cons, List.not_mem_nil, or_false] at hvt
    rcases hvt with hvt | hvt | hvt
    · rw [show cfg.vote_type = "enc" from hvt]
      unfold voteSelect
      rw [if_pos rfl]
      dsimp only
      rw [hsel]
      refine ⟨rfl, by simp, ?_⟩
      intro tag t
      simp
    · rw [show cfg.vote_type = "soft" from hvt]
      unfold voteSelect
      rw [if_neg (by decide), if_pos rfl]
      dsimp only
      rw [hsel]
      refine ⟨rfl, by simp, ?_⟩
      intro tag t
      simp
    · rw [show cfg.vote_type = "hard" from hvt]
      unfold voteSelect
      rw [if_neg (by decide), if_neg (by decide), if_pos rfl]
      dsimp only
      rw [hsel]
      refine ⟨rfl, by simp, ?_⟩
      intro tag t
      simp

/-- Concrete instance of `invalid_selector_amended`: `vote_type = "bogus"`
raises the descriptive error with no reconstruction attempted. -/
theorem invalid_selector_amended_witness :
    (buildScae cfgBogusW extOkW dataLabelW).fst =
      Except.error (PyErr.valueError "Invalid vote_type=\"bogus\"\".") ∧
    Event.decoderCall ∈ (buildScae cfgBogusW extOkW dataLabelW).snd := by
  have h := (invalid_selector_amended cfgBogusW extOkW dataLabelW
    (fun a b => ⟨Val.ext2 "enc2" a b, rfl⟩) rfl).1 (by decide)
  exact ⟨h.1, h.2.1⟩

/-! ## Claim C7: the encoder-call fallback -/

/-- C7 fails on the code: `except TypeError:` is origin-blind. A
`TypeError` raised inside the encoder body (not an argument-count
mismatch) is caught and the one-argument fallback runs to a successful
pass instead of propagating; likewise a `TypeError` from the template
tiling inside the `try` block. -/
theorem fallback_catch_counterexample :
    (∃ r tr, buildScae cfgW extBodyTypeErrW dataLabelW =
        (Except.ok r, tr) ∧ Event.encoderOneArgCall ∈ tr) ∧
    (buildScae cfgW extBodyTypeErrW dataLabelW).fst ≠
      Except.error (PyErr.typeError "encoder_body") ∧
    (∃ r tr, buildScae cfgW extTileTypeErrW dataLabelW =
        (Except.ok r, tr) ∧ Event.encoderOneArgCall ∈ tr) := by
  refine ⟨⟨_, _, rfl, by decide⟩, by decide, ⟨_, _, rfl, by decide⟩⟩

/-- C7 (amended): the `try`/`except TypeError` region catches every
`TypeError` raised inside it — from the template tiling/flatten/concat
steps or from the encoder call or body alike — and then the outcome of the
whole region is the one-argument fallback call's outcome; any
non-`TypeError` exception propagates unmodified out of the region and out
of the forward pass, which contains no other handler. -/
theorem fallback_catch_amended (cfg : Config) (ext : ExtBehavior)
    (ip ipr T : Val) (data : DataRecord) :
    (∀ s evs, tryFirst cfg ext ip ipr T =
        (Except.error (PyErr.typeError s), evs) →
      tryRegion cfg ext ip ipr T =
        (ext.oneArg ip, evs ++ [Event.encoderOneArgCall])) ∧
    (∀ e evs, tryFirst cfg ext ip ipr T = (Except.error e, evs) →
      (∀ s, e ≠ PyErr.typeError s) →
      tryRegion cfg ext ip ipr T = (Except.error e, evs)) ∧
    (∀ hv evs, tryFirst cfg ext ip ipr T = (Except.ok hv, evs) →
      tryRegion cfg ext ip ipr T = (Except.ok hv, evs)) ∧
    (∀ e evs, tryRegion cfg ext (inputPoseF cfg ext data)
        (inputPresF cfg data) (templatesF ext data) =
        (Except.error e, evs) →
      buildScae cfg ext data = (Except.error e,
        [Event.primaryEncoderCall,
         Event.makeTemplatesCall (templatesF ext data)] ++ evs)) := by
  refine ⟨?_, ?_, ?_, ?_⟩
  · intro s evs h
    unfold tryRegion
    rw [h]
  · intro e evs h hne
    unfold tryRegion
    rw [h]
    cases e with
    | typeError s => exact absurd rfl (hne s)
    | valueError m => rfl
    | attributeError f => rfl
    | other m => rfl
  · intro hv evs h
    unfold tryRegion
    rw [h]
  · intro e evs h
    unfold buildScae
    rw [h]

/-- Concrete instance of `fallback_catch_amended`: a non-`TypeError`
failure of the two-argument encoder call propagates unmodified through the
region and aborts the forward pass. -/
theorem fallback_catch_amended_witness :
    tryRegion cfgW extNonTypeErrW (Val.ext0 "ip") (Val.ext0 "ipr")
      (Val.ext0 "T") =
      (Except.error (PyErr.other "boom"), [Event.encoderTwoArgCall]) ∧
    buildScae cfgW extNonTypeErrW dataLabelW = (Except.error
      (PyErr.other "boom"),
      [Event.primaryEncoderCall,
       Event.makeTemplatesCall (templatesF extNonTypeErrW dataLabelW),
       Event.encoderTwoArgCall]) := by
  constructor
  · exact (fallback_catch_amended cfgW extNonTypeErrW (Val.ext0 "ip")
      (Val.ext0 "ipr") (Val.ext0 "T") dataLabelW).2.1
      (PyErr.other "boom") [Event.encoderTwoArgCall] rfl
      (fun s h => by cases h)
  · exact (fallback_catch_amended cfgW extNonTypeErrW (Val.ext0 "ip")
      (Val.ext0 "ipr") (Val.ext0 "T") dataLabelW).2.2.2
      (PyErr.other "boom") [Event.encoderTwoArgCall] rfl

/-! ## Inversion of a successful forward pass -/

/-- Any successful forward pass decomposes into: a successful `tryRegion`,
successful vote/pres selections, a present label, the `mkSuccess` record
and the canonical trace. -/
lemma buildScae_ok_inv {cfg : Config} {ext : ExtBehavior}
    {data : DataRecord} {r : BuildRes} {tr : List Event}
    (hr : buildScae cfg ext data = (Except.ok r, tr)) :
    ∃ hv evs pdv pdp lab,
      tryRegion cfg ext (inputPoseF cfg ext data) (inputPresF cfg data)
        (templatesF ext data) = (Except.ok hv, evs) ∧
      voteSelect cfg.vote_type (pcPoseF data)
        (Val.ext1 "soft_winner" (decV cfg data hv))
        (Val.ext1 "winner" (decV cfg data hv)) = Except.ok pdv ∧
      presSelect cfg.pres_type (pcPresF data)
        (Val.ext1 "soft_winner_pres" (decV cfg data hv))
        (Val.ext1 "winner_pres" (decV cfg data hv)) = Except.ok pdp ∧
      data.label = some lab ∧
      r = mkSuccess cfg ext data hv pdv pdp lab ∧
      tr = [Event.primaryEncoderCall,
        Event.makeTemplatesCall (templatesF ext data)] ++ evs ++
        [Event.decoderCall] ++ tailEvents (templatesF ext data) true := by
  unfold buildScae at hr
  rcases h1 : tryRegion cfg ext (inputPoseF cfg ext data)
    (inputPresF cfg data) (templatesF ext data) with ⟨res1, evs⟩
  rw [h1] at hr
  cases res1 with
  | error e => simp at hr
  | ok hv =>
    dsimp only at hr
    rcases h2 : voteSelect cfg.vote_type (pcPoseF data)
      (Val.ext1 "soft_winner" (decV cfg data hv))
      (Val.ext1 "winner" (decV cfg data hv)) with e2 | pdv
    · rw [h2] at hr; simp at hr
    · rw [h2] at hr
      dsimp only at hr
      rcases h3 : presSelect cfg.pres_type (pcPresF data)
        (Val.ext1 "soft_winner_pres" (decV cfg data hv))
        (Val.ext1 "winner_pres" (decV cfg data hv)) with e3 | pdp
      · rw [h3] at hr; simp at hr
      · rw [h3] at hr
        dsimp only at hr
        rcases h4 : data.label with _ | lab
        · rw [h4] at hr; simp at hr
        · rw [h4] at hr
          dsimp only at hr
          simp only [Prod.mk.injEq, Except.ok.injEq] at hr
          exact ⟨hv, evs, pdv, pdp, lab, rfl, h2, h3, rfl,
            hr.1.symm, hr.2.symm⟩

/-- The events produced inside `tryFirst`. -/
lemma tryFirst_events (cfg : Config) (ext : ExtBehavior) (ip ipr T : Val) :
    (tryFirst cfg ext ip ipr T).snd = [] ∨
    (tryFirst cfg ext ip ipr T).snd = [Event.encoderTwoArgCall] := by
  unfold tryFirst
  by_cases hf : cfg.feed_templates
  · rw [if_pos hf]
    cases htl : ext.tileErr with
    | none => exact Or.inr rfl
    | some e0 => exact Or.inl rfl
  · rw [if_neg hf]
    exact Or.inr rfl

/-- Every event recorded by `tryRegion` is an encoder call. -/
lemma tryRegion_events (cfg : Config) (ext : ExtBehavior) (ip ipr T : Val) :
    ∀ e ∈ (tryRegion cfg ext ip ipr T).snd,
      e = Event.encoderTwoArgCall ∨ e = Event.encoderOneArgCall := by
  unfold tryRegion
  rcases h : tryFirst cfg ext ip ipr T with ⟨res1, evs⟩
  have hevs : evs = [] ∨ evs = [Event.encoderTwoArgCall] := by
    have h' := tryFirst_events cfg ext ip ipr T
    rw [h] at h'
    exact h'
  cases res1 with
  | ok hv =>
      intro e he
      rcases hevs with h' | h' <;> subst h' <;> simp at he
      exact Or.inl he
  | error err =>
      cases err with
      | typeError s =>
          intro e he
          dsimp only at he
          rcases hevs with h' | h' <;> subst h' <;> simp at he
          · exact Or.inr he
          · rcases he with he | he
            · exact Or.inl he
            · exact Or.inr he
      | valueError m =>
          intro e he
          rcases hevs with h' | h' <;> subst h' <;> simp at he
          exact Or.inl he
      | attributeError f =>
          intro e he
          rcases hevs with h' | h' <;> subst h' <;> simp at he
          exact Or.inl he
      | other m =>
          intro e he
          rcases hevs with h' | h' <;> subst h' <;> simp at he
          exact Or.inl he

/-! ## Claim C5: templates generated once and shared -/

/-- Recognizer for template-generation events. -/
def isMakeTemplatesEv : Event → Bool
  | Event.makeTemplatesCall _ => true
  | _ => false

/-- Recognizer for primary-decoder call events. -/
def isPrimaryDecEv : Event → Bool
  | Event.primaryDecoderCall _ _ => true
  | _ => false

/-- C5: in every successful forward pass the decoder's template-generation
function is invoked exactly once (the trace filter is the singleton of that
call, whose tensor is the one exposed as `res.templates`), there are
exactly four primary-decoder calls, and every one of them holds the
identical template tensor generated by that single call — templates are
never regenerated per path. -/
theorem templates_generated_once (cfg : Config) (ext : ExtBehavior)
    (data : DataRecord) (r : BuildRes) (tr : List Event)
    (hr : buildScae cfg ext data = (Except.ok r, tr)) :
    tr.filter isMakeTemplatesEv = [Event.makeTemplatesCall r.templates] ∧
    (tr.filter isPrimaryDecEv).length = 4 ∧
    (∀ tag t, Event.primaryDecoderCall tag t ∈ tr →
      t = some r.templates) ∧
    r.templates = templatesF ext data := by
  obtain ⟨hv, evs, pdv, pdp, lab, t1, v1, p1, l1, re, te⟩ :=
    buildScae_ok_inv hr
  have hrt : r.templates = templatesF ext data := by rw [re]; rfl
  have hevs : ∀ e ∈ evs, e = Event.encoderTwoArgCall ∨
      e = Event.encoderOneArgCall := by
    have h' := tryRegion_events cfg ext (inputPoseF cfg ext data)
      (inputPresF cfg data) (templatesF ext data)
    rw [t1] at h'
    exact h'
  have hf1 : evs.filter isMakeTemplatesEv = [] := by
    rw [List.filter_eq_nil]
    intro e he
    rcases hevs e he with h' | h' <;> subst h' <;> decide
  have hf2 : evs.filter isPrimaryDecEv = [] := by
    rw [List.filter_eq_nil]
    intro e he
    rcases hevs e he with h' | h' <;> subst h' <;> decide
  subst te
  refine ⟨?_, ?_, ?_, hrt⟩
  · simp [List.filter_append, hf1, hf2, tailEvents, pdEvents,
      isMakeTemplatesEv, hrt]
  · simp [List.filter_append, hf1, hf2, tailEvents, pdEvents,
      isPrimaryDecEv]
  · intro tag t hmem
    rw [hrt]
    rcases List.mem_append.1 hmem with hm | hm
    · rcases List.mem_append.1 hm with hm2 | hm2
      · rcases List.mem_append.1 hm2 with hm3 | hm3
        · simp at hm3
        · rcases hevs _ hm3 with h'' | h'' <;> cases h''
      · simp at hm2
    · simp only [tailEvents, if_true] at hm
      rcases List.mem_append.1 hm with hm2 | hm2
      · rcases List.mem_append.1 hm2 with hm3 | hm3
        · simp only [pdEvents, List.mem_cons, List.not_mem_nil,
            or_false] at hm3
          rcases hm3 with h' | h' | h' | h' <;> (cases h'; rfl)
        · simp at hm3
      · simp at hm2

/-- Concrete instance of `templates_generated_once`. -/
theorem templates_generated_once_witness :
    ∃ r tr, buildScae cfgW extOkW dataLabelW = (Except.ok r, tr) ∧
      tr.filter isMakeTemplatesEv =
        [Event.makeTemplatesCall r.templates] ∧
      (tr.filter isPrimaryDecEv).length = 4 := by
  refine ⟨_, _, rfl, ?_, ?_⟩
  · exact (templates_generated_once cfgW extOkW dataLabelW _ _ rfl).1
  · exact (templates_generated_once cfgW extOkW dataLabelW _ _ rfl).2.1

/-! ## Claim C6: vote/pres selector switch invariance -/

/-- C6: two successful runs on the same input, parameters and external
behaviour that differ only in `vote_type`/`pres_type` produce identical
bottom-up and top-down reconstructions (and identical per-capsule
reconstruction, templates, votes and presences): the switch only changes
which precomputed tensor pair feeds the primary decode call. -/
theorem selector_switch_invariance (cfg : Config) (ext : ExtBehavior)
    (data : DataRecord) (vt₁ pt₁ vt₂ pt₂ : String) (r₁ r₂ : BuildRes)
    (tr₁ tr₂ : List Event)
    (h1 : buildScae { cfg with vote_type := vt₁, pres_type := pt₁ } ext
      data = (Except.ok r₁, tr₁))
    (h2 : buildScae { cfg with vote_type := vt₂, pres_type := pt₂ } ext
      data = (Except.ok r₂, tr₂)) :
    r₁.bottom_up_rec = r₂.bottom_up_rec ∧
    r₁.top_down_rec = r₂.top_down_rec ∧
    r₁.top_down_per_caps_rec = r₂.top_down_per_caps_rec ∧
    r₁.templates = r₂.templates ∧
    r₁.vote = r₂.vote ∧
    r₁.vote_presence = r₂.vote_presence ∧
    r₁.caps_presence_prob = r₂.caps_presence_prob ∧
    r₁.primary_presence = r₂.primary_presence := by
  obtain ⟨hv₁, evs₁, pdv₁, pdp₁, lab₁, t1, v1, p1, l1, re1, te1⟩ :=
    buildScae_ok_inv h1
  obtain ⟨hv₂, evs₂, pdv₂, pdp₂, lab₂, t2, v2, p2, l2, re2, te2⟩ :=
    buildScae_ok_inv h2
  have heq : (Except.ok (ε := PyErr) hv₁, evs₁) =
      (Except.ok (ε := PyErr) hv₂, evs₂) := by
    rw [← t1, ← t2]
    rfl
  simp only [Prod.mk.injEq, Except.ok.injEq] at heq
  obtain ⟨hhv, -⟩ := heq
  subst hhv
  have hlab : lab₁ = lab₂ := Option.some.inj (l1.symm.trans l2)
  subst hlab
  subst re1
  subst re2
  exact ⟨rfl, rfl, rfl, rfl, rfl, rfl, rfl, rfl⟩

/-- Concrete instance of `selector_switch_invariance`: runs with
`(enc, enc)` and `(hard, soft)` selections agree on both auxiliary
reconstructions. -/
theorem selector_switch_invariance_witness :
    ∃ r₁ tr₁ r₂ tr₂,
      buildScae { cfgW with vote_type := "enc", pres_type := "enc" }
        extOkW dataLabelW = (Except.ok r₁, tr₁) ∧
      buildScae { cfgW with vote_type := "hard", pres_type := "soft" }
        extOkW dataLabelW = (Except.ok r₂, tr₂) ∧
      r₁.bottom_up_rec = r₂.bottom_up_rec ∧
      r₁.top_down_rec = r₂.top_down_rec := by
  refine ⟨_, _, _, _, rfl, rfl, ?_, ?_⟩
  · exact (selector_switch_invariance cfgW extOkW dataLabelW
      "enc" "enc" "hard" "soft" _ _ _ _ rfl rfl).1
  · exact (selector_switch_invariance cfgW extOkW dataLabelW
      "enc" "enc" "hard" "soft" _ _ _ _ rfl rfl).2.1

end Scae
